import Mathlib

/-!
Verification of the shopping-list backend (`src/backend/server.py`).

The Python handlers are shallowly embedded as Lean functions over an explicit
document-store state `DB`.  External nondeterminism (uuid4 identifiers,
wall-clock timestamps, bcrypt salts) is threaded as explicit parameters.
The external libraries `bcrypt` and `pyjwt` are modelled at the level of their
observable semantics: the bcrypt digest is an injective stand-in embedding its
salt (self-describing, parse-or-raise on verification), and an HS256 signature
is an injective function of the secret and payload, with PyJWT's order of
checks (signature first, then expiry) preserved.
-/

namespace Server

/-- HTTP error `HTTPException(status_code, detail)` as raised by the handlers. -/
structure HTTPError where
  status_code : Nat
  detail : String
deriving DecidableEq, Repr

/-- Error `HTTPException(400, "Usuário já existe")` raised by `register`. -/
def errUserExists : HTTPError := ⟨400, "Usuário já existe"⟩

/-- Error `HTTPException(401, "Usuário ou senha incorretos")` raised by `login`. -/
def errInvalidCredentials : HTTPError := ⟨401, "Usuário ou senha incorretos"⟩

/-- Error `HTTPException(401, "Token expirado")` raised by `decode_jwt_token`. -/
def errTokenExpired : HTTPError := ⟨401, "Token expirado"⟩

/-- Error `HTTPException(401, "Token inválido")` raised by `decode_jwt_token`. -/
def errTokenInvalid : HTTPError := ⟨401, "Token inválido"⟩

/-- Error `HTTPException(401, "Usuário não encontrado")` raised by `get_current_user`. -/
def errUserNotFound : HTTPError := ⟨401, "Usuário não encontrado"⟩

/-- Error `HTTPException(404, "Item não encontrado")` raised by the item routes. -/
def errItemNotFound : HTTPError := ⟨404, "Item não encontrado"⟩

/-- Outcome of a handler: an explicit `HTTPException`, or an uncaught Python
exception (which FastAPI turns into a 500 response). -/
inductive ApiError where
  | http (e : HTTPError)
  | exn (msg : String)
deriving DecidableEq, Repr

/-! ### bcrypt model

`bcrypt.hashpw(pw, bcrypt.gensalt())` produces a self-describing hash string
`$2b$12$<salt><digest>`; `bcrypt.checkpw(pw, hashed)` re-parses the salt out
of `hashed`, recomputes, and compares — raising `ValueError("Invalid salt")`
when `hashed` is not a structurally valid bcrypt hash.  We model the digest as
an injective function of salt and password (standing in for the one-way
digest), with a dollar delimiter that the genuine salt alphabet never uses. -/

/-- The `$2b$12$` header of a modelled bcrypt hash. -/
def bcryptHeader : List Char := ['$', '2', 'b', '$', '1', '2', '$']

/-- Modelled bcrypt hash: header, salt, delimiter, digest (injective stand-in). -/
def bcrypt_hash_chars (salt : List Char) (pw : String) : List Char :=
  bcryptHeader ++ salt ++ '$' :: pw.data

/-- Model of `bcrypt.gensalt()`: a fresh salt drawn from an alphabet without the dollar delimiter,
indexed by the random seed `r`. -/
def bcrypt_gensalt (r : Nat) : List Char :=
  (Nat.repr r).data.filter (fun c => decide (c ≠ '$'))

/-- Strip the `$2b$12$` header from a candidate hash; `none` when the
structure is not a bcrypt hash. -/
def stripBcryptHeader : List Char → Option (List Char)
  | '$' :: '2' :: 'b' :: '$' :: '1' :: '2' :: '$' :: rest => some rest
  | _ => none

/-- Split off the salt (everything before the delimiter) from the body of a
hash; `none` when no delimiter is present (malformed). -/
def splitSalt : List Char → Option (List Char × List Char)
  | [] => none
  | c :: rest =>
    if c = '$' then some ([], rest)
    else (splitSalt rest).map (fun p => (c :: p.1, p.2))

/-- Model of `bcrypt.checkpw(password, hashed)`: parse the salt out of `hashed`,
recompute, compare.  `.error` models the uncaught `ValueError("Invalid salt")`
on a structurally malformed hash. -/
def bcrypt_checkpw (password hashed : String) : Except String Bool :=
  match stripBcryptHeader hashed.data with
  | none => .error "Invalid salt"
  | some rest =>
    match splitSalt rest with
    | none => .error "Invalid salt"
    | some (salt, _) => .ok (bcrypt_hash_chars salt password == hashed.data)

/-- Helper `hash_password` (server.py:93): `bcrypt.hashpw(password, bcrypt.gensalt())`,
with the salt randomness threaded as `r`. -/
def hash_password (password : String) (r : Nat) : String :=
  String.mk (bcrypt_hash_chars (bcrypt_gensalt r) password)

/-- Helper `verify_password` (server.py:96): a bare `bcrypt.checkpw` call — any
`ValueError` from bcrypt propagates. -/
def verify_password (password hashed : String) : Except String Bool :=
  bcrypt_checkpw password hashed

/-! ### JWT model -/

/-- Decoded JWT claims `{user_id, username, exp}`; `exp` in Unix seconds. -/
structure JwtPayload where
  user_id : String
  username : String
  exp : Int
deriving DecidableEq, Repr

/-- A compact signed token: claims plus HMAC-SHA256 signature. -/
structure JwtToken where
  payload : JwtPayload
  sig : String
deriving DecidableEq, Repr

/-- Constant `JWT_SECRET` (server.py:26), at its default. -/
def JWT_SECRET : String := "your-secret-key-change-in-production"

/-- Constant `JWT_EXPIRATION_HOURS = 24 * 7` (server.py:28). -/
def JWT_EXPIRATION_HOURS : Int := 24 * 7

/-- HMAC-SHA256 over the payload with the given key, modelled as an injective
function of key and payload. -/
def hmac_sign (key : String) (p : JwtPayload) : String :=
  key ++ "|" ++ p.user_id ++ "|" ++ p.username ++ "|" ++ toString p.exp

/-- Helper `create_jwt_token` (server.py:99): claims with
`exp = now + timedelta(hours=JWT_EXPIRATION_HOURS)`, signed with `JWT_SECRET`. -/
def create_jwt_token (user_id username : String) (now : Int) : JwtToken :=
  let p : JwtPayload := ⟨user_id, username, now + JWT_EXPIRATION_HOURS * 3600⟩
  ⟨p, hmac_sign JWT_SECRET p⟩

/-- Helper `decode_jwt_token` (server.py:107): `jwt.decode` verifies the signature
first (`InvalidTokenError` → 401 "Token inválido"), then the `exp` claim
(`ExpiredSignatureError` → 401 "Token expirado"). -/
def decode_jwt_token (now : Int) (t : JwtToken) : Except HTTPError JwtPayload :=
  if t.sig = hmac_sign JWT_SECRET t.payload then
    if t.payload.exp ≤ now then .error errTokenExpired
    else .ok t.payload
  else .error errTokenInvalid

/-! ### Data model -/

/-- A `users` document at rest: `{id, username, password_hash, created_at}`
(server.py:151–155). -/
structure UserRec where
  id : String
  username : String
  password_hash : String
  created_at : String
deriving DecidableEq, Repr

/-- The `User` pydantic response model (server.py:38): `extra="ignore"`, so
`password_hash` is dropped on construction. -/
structure User where
  id : String
  username : String
  created_at : String
deriving DecidableEq, Repr

/-- Constructor `User(**doc)` with `extra="ignore"`: keep only the declared fields. -/
def publicUser (u : UserRec) : User :=
  ⟨u.id, u.username, u.created_at⟩

/-- Serialization of a `User` response body: exactly the declared fields. -/
def User.model_dump (u : User) : List (String × String) :=
  [("id", u.id), ("username", u.username), ("created_at", u.created_at)]

/-- Response model `TokenResponse` (server.py:52). -/
structure TokenResponse where
  access_token : JwtToken
  token_type : String
  user : User
deriving DecidableEq, Repr

/-- The field names present in a serialized `TokenResponse` body. -/
def TokenResponse.dumpKeys (t : TokenResponse) : List String :=
  ["access_token", "token_type"] ++ (User.model_dump t.user).map Prod.fst

/-- Model `Category` (server.py:57). -/
structure Category where
  id : String
  name : String
  color : String
  icon : String
  user_id : Option String
  created_at : String
deriving DecidableEq, Repr

/-- Request body `CategoryCreate` (server.py:66). -/
structure CategoryCreate where
  name : String
  color : String
  icon : String
deriving DecidableEq, Repr

/-- Model `ShoppingItem` (server.py:71). -/
structure ShoppingItem where
  id : String
  user_id : String
  description : String
  photo_url : Option String
  category_id : String
  is_purchased : Bool
  created_at : String
  updated_at : String
deriving DecidableEq, Repr

/-- Request body `ShoppingItemCreate` (server.py:82). -/
structure ShoppingItemCreate where
  description : String
  photo_url : Option String
  category_id : String
deriving DecidableEq, Repr

/-- Request body `ShoppingItemUpdate` (server.py:87): every field optional. -/
structure ShoppingItemUpdate where
  description : Option String
  photo_url : Option String
  category_id : Option String
deriving DecidableEq, Repr

/-- The document store: the three MongoDB collections, in insertion order. -/
structure DB where
  users : List UserRec
  categories : List Category
  shopping_items : List ShoppingItem
deriving DecidableEq, Repr

/-! ### Document-store primitives

`find_one` returns the first document matching the filter; `update_one`
applies `$set` to the first match; `delete_one` removes the first match and
reports `deleted_count`. -/

/-- Store operation `update_one` with a set patch: rewrite the first match. -/
def updateFirst {α : Type} (p : α → Bool) (f : α → α) : List α → List α
  | [] => []
  | x :: xs => if p x then f x :: xs else x :: updateFirst p f xs

/-- Store operation `delete_one(filter)`: remove the first match, returning `deleted_count`. -/
def deleteFirst {α : Type} (p : α → Bool) : List α → Nat × List α
  | [] => (0, [])
  | x :: xs =>
    if p x then (1, xs)
    else
      let r := deleteFirst p xs
      (r.1, x :: r.2)

/-! ### Handlers -/

/-- Handler `register` (server.py:143): reject a duplicate username, else persist
`{**user, password_hash}` and return a fresh token with the public user. -/
def register (db : DB) (username password : String) (newId created_at : String)
    (r : Nat) (now : Int) : Except ApiError TokenResponse × DB :=
  match db.users.find? (fun u => u.username == username) with
  | some _ => (.error (.http errUserExists), db)
  | none =>
    let user : UserRec :=
      { id := newId, username := username,
        password_hash := hash_password password r, created_at := created_at }
    let token := create_jwt_token user.id user.username now
    (.ok { access_token := token, token_type := "bearer", user := publicUser user },
     { db with users := db.users ++ [user] })

/-- Handler `login` (server.py:162): look up by username; absent user and failed
verification raise the same 401; a bcrypt `ValueError` propagates uncaught. -/
def login (db : DB) (username password : String) (now : Int) :
    Except ApiError TokenResponse :=
  match db.users.find? (fun u => u.username == username) with
  | none => .error (.http errInvalidCredentials)
  | some user =>
    match verify_password password user.password_hash with
    | .error msg => .error (.exn msg)
    | .ok false => .error (.http errInvalidCredentials)
    | .ok true =>
      .ok { access_token := create_jwt_token user.id user.username now,
            token_type := "bearer", user := publicUser user }

/-- Dependency `get_current_user` (server.py:115): decode the bearer token, then load the
user document by the embedded `user_id`. -/
def get_current_user (db : DB) (t : JwtToken) (now : Int) :
    Except HTTPError UserRec :=
  match decode_jwt_token now t with
  | .error e => .error e
  | .ok payload =>
    match db.users.find? (fun u => u.id == payload.user_id) with
    | none => .error errUserNotFound
    | some user => .ok user

/-- Handler `get_me` (server.py:179): returns `User(**current_user)`. -/
def get_me (db : DB) (t : JwtToken) (now : Int) : Except HTTPError User :=
  (get_current_user db t now).map publicUser

/-- Handler `get_categories` (server.py:184): `$or` of global and own categories,
natural order, `to_list(1000)`. -/
def get_categories (db : DB) (current_user : UserRec) : List Category :=
  (db.categories.filter
    (fun c => c.user_id == none || c.user_id == some current_user.id)).take 1000

/-- Handler `create_category` (server.py:192): always owned by the caller. -/
def create_category (db : DB) (current_user : UserRec) (data : CategoryCreate)
    (newId created_at : String) : Category × DB :=
  let category : Category :=
    { id := newId, name := data.name, color := data.color, icon := data.icon,
      user_id := some current_user.id, created_at := created_at }
  (category, { db with categories := db.categories ++ [category] })

/-- Handler `get_items` (server.py:199): filter on `user_id`, sort `created_at`
descending, `to_list(1000)`. -/
def get_items (db : DB) (current_user : UserRec) : List ShoppingItem :=
  ((db.shopping_items.filter (fun it => it.user_id == current_user.id)).mergeSort
    (fun a b => decide (b.created_at ≤ a.created_at))).take 1000

/-- Handler `create_item` (server.py:207): new item owned by the caller, unpurchased. -/
def create_item (db : DB) (current_user : UserRec) (data : ShoppingItemCreate)
    (newId created_at : String) : ShoppingItem × DB :=
  let item : ShoppingItem :=
    { id := newId, user_id := current_user.id, description := data.description,
      photo_url := data.photo_url, category_id := data.category_id,
      is_purchased := false, created_at := created_at, updated_at := created_at }
  (item, { db with shopping_items := db.shopping_items ++ [item] })

/-- The `$set` document built by `update_item` (server.py:221): the non-`None`
patch fields plus a fresh `updated_at`. -/
def applyItemPatch (patch : ShoppingItemUpdate) (ts : String)
    (it : ShoppingItem) : ShoppingItem :=
  { it with
    description := patch.description.getD it.description,
    photo_url :=
      match patch.photo_url with
      | some p => some p
      | none => it.photo_url,
    category_id := patch.category_id.getD it.category_id,
    updated_at := ts }

/-- Handler `update_item` (server.py:213): ownership-filtered `find_one`, 404 on miss;
then `update_one({"id": item_id}, {"$set": ...})` and a re-fetch by id.
`ShoppingItem(**None)` on a failed re-fetch would be an uncaught `TypeError`. -/
def update_item (db : DB) (current_user : UserRec) (item_id : String)
    (item_data : ShoppingItemUpdate) (ts : String) :
    Except ApiError ShoppingItem × DB :=
  match db.shopping_items.find?
      (fun it => it.id == item_id && it.user_id == current_user.id) with
  | none => (.error (.http errItemNotFound), db)
  | some _ =>
    let items := updateFirst (fun it => it.id == item_id)
      (applyItemPatch item_data ts) db.shopping_items
    let db' : DB := { db with shopping_items := items }
    match items.find? (fun it => it.id == item_id) with
    | none => (.error (.exn "TypeError"), db')
    | some updated => (.ok updated, db')

/-- Handler `toggle_item` (server.py:232): ownership-filtered `find_one`, 404 on miss;
`new_status` is the negation of the stored purchased flag; `$set` by id; re-fetch. -/
def toggle_item (db : DB) (current_user : UserRec) (item_id : String)
    (ts : String) : Except ApiError ShoppingItem × DB :=
  match db.shopping_items.find?
      (fun it => it.id == item_id && it.user_id == current_user.id) with
  | none => (.error (.http errItemNotFound), db)
  | some item =>
    let new_status := !item.is_purchased
    let items := updateFirst (fun it => it.id == item_id)
      (fun it => { it with is_purchased := new_status, updated_at := ts })
      db.shopping_items
    let db' : DB := { db with shopping_items := items }
    match items.find? (fun it => it.id == item_id) with
    | none => (.error (.exn "TypeError"), db')
    | some updated => (.ok updated, db')

/-- Handler `delete_item` (server.py:248): `delete_one` with the ownership filter;
404 when `deleted_count == 0`. -/
def delete_item (db : DB) (current_user : UserRec) (item_id : String) :
    Except ApiError String × DB :=
  let r := deleteFirst
    (fun it => it.id == item_id && it.user_id == current_user.id)
    db.shopping_items
  if r.1 == 0 then (.error (.http errItemNotFound), db)
  else (.ok "Item deletado com sucesso", { db with shopping_items := r.2 })

end Server

deriving instance DecidableEq for Except

namespace Server

/-! ### Helper lemmas: bcrypt -/

/-- Stripping the header from a headed character list recovers the body. -/
theorem strip_header_append (l : List Char) :
    stripBcryptHeader (bcryptHeader ++ l) = some l := rfl

/-- Parsing with `splitSalt` recovers a delimiter-free salt and the trailing digest. -/
theorem splitSalt_append (salt d : List Char) (h : '$' ∉ salt) :
    splitSalt (salt ++ '$' :: d) = some (salt, d) := by
  induction salt with
  | nil => simp [splitSalt]
  | cons c cs ih =>
    have hc : c ≠ '$' := fun hc => h (hc ▸ List.mem_cons_self c cs)
    have hcs : '$' ∉ cs := fun hm => h (List.mem_cons_of_mem c hm)
    simp [splitSalt, hc, ih hcs]

/-- Generated salts never contain the delimiter. -/
theorem dollar_not_mem_gensalt (r : Nat) : '$' ∉ bcrypt_gensalt r := by
  intro hm
  have := (List.mem_filter.mp hm).2
  simp at this

/-- On a hash produced by `hash_password`, `checkpw` never raises, and reports
exactly whether the presented password is the hashed one. -/
theorem checkpw_hash_password (pw pw' : String) (r : Nat) :
    bcrypt_checkpw pw (hash_password pw' r) = .ok (pw == pw') := by
  have hdata : (hash_password pw' r).data =
      bcryptHeader ++ (bcrypt_gensalt r ++ '$' :: pw'.data) := by
    simp [hash_password, bcrypt_hash_chars]
  simp only [bcrypt_checkpw, hdata, strip_header_append,
    splitSalt_append _ _ (dollar_not_mem_gensalt r)]
  have hbool : (bcrypt_hash_chars (bcrypt_gensalt r) pw ==
      bcryptHeader ++ (bcrypt_gensalt r ++ '$' :: pw'.data)) = (pw == pw') := by
    by_cases h : pw = pw'
    · subst h
      simp [bcrypt_hash_chars]
    · have hd : pw.data ≠ pw'.data := fun hc => h (String.ext hc)
      simp [bcrypt_hash_chars, h, hd]
  rw [hbool]

/-! ### Helper lemmas: JWT -/

/-- Decoding a token we issued, before its expiry, yields its claims. -/
theorem decode_create_jwt (uid uname : String) (now now' : Int)
    (h : now' < now + JWT_EXPIRATION_HOURS * 3600) :
    decode_jwt_token now' (create_jwt_token uid uname now) =
      .ok ⟨uid, uname, now + JWT_EXPIRATION_HOURS * 3600⟩ := by
  simp [decode_jwt_token, create_jwt_token, not_le.mpr h]

/-! ### Helper lemmas: store primitives -/

/-- A `delete_one` with an unsatisfied filter deletes nothing. -/
theorem deleteFirst_of_forall_not {α : Type} (p : α → Bool) (l : List α)
    (h : ∀ x ∈ l, p x = false) : deleteFirst p l = (0, l) := by
  induction l with
  | nil => rfl
  | cons x xs ih =>
    have hx := h x (List.mem_cons_self x xs)
    have hxs := ih (fun y hy => h y (List.mem_cons_of_mem x hy))
    simp [deleteFirst, hx, hxs]

/-- Core lemma for the read-modify-write routes: with pairwise-distinct item
identifiers, after an ownership-filtered `find_one` hit, the id-filtered
`update_one` rewrites exactly the found item; the stored identifiers are
unchanged, and both the id-only re-fetch and a repeated ownership-filtered
lookup return the rewritten item, for any rewrite preserving `id` and
`user_id`. -/
theorem updateFirst_find_spec (iid uid : String) (f : ShoppingItem → ShoppingItem)
    (hf : ∀ it, (f it).id = it.id ∧ (f it).user_id = it.user_id) :
    ∀ (l : List ShoppingItem) (item : ShoppingItem),
      (l.map (fun it => it.id)).Nodup →
      l.find? (fun it => it.id == iid && it.user_id == uid) = some item →
      (updateFirst (fun it => it.id == iid) f l).map (fun it => it.id) =
          l.map (fun it => it.id) ∧
      (updateFirst (fun it => it.id == iid) f l).find?
          (fun it => it.id == iid) = some (f item) ∧
      (updateFirst (fun it => it.id == iid) f l).find?
          (fun it => it.id == iid && it.user_id == uid) = some (f item) := by
  intro l
  induction l with
  | nil => intro item _ hfind; simp at hfind
  | cons x xs ih =>
    intro item hnd hfind
    by_cases hx : (x.id == iid && x.user_id == uid) = true
    · have hitem : item = x := by
        rw [List.find?_cons] at hfind
        rw [hx] at hfind
        exact (Option.some.inj hfind).symm
      subst hitem
      obtain ⟨hid, huid⟩ : (item.id == iid) = true ∧ (item.user_id == uid) = true := by
        simpa using hx
      have hfid := (hf item).1
      have hfuid := (hf item).2
      refine ⟨?_, ?_, ?_⟩
      · simp [updateFirst, hid, hfid]
      · simp [updateFirst, hid, List.find?_cons, hfid]
      · simp [updateFirst, hid, List.find?_cons, hfid, hfuid, huid]
    · have hx' : (x.id == iid && x.user_id == uid) = false := by simpa using hx
      have hfind' : xs.find? (fun it => it.id == iid && it.user_id == uid) = some item := by
        rw [List.find?_cons, hx'] at hfind
        exact hfind
      have hitem_mem : item ∈ xs := List.mem_of_find?_eq_some hfind'
      have hitem_id : (item.id == iid) = true := by
        have := List.find?_some hfind'
        simp at this
        simpa using this.1
      have hnd_tail : (xs.map (fun it => it.id)).Nodup := (List.nodup_cons.mp hnd).2
      have hx_not : x.id ∉ xs.map (fun it => it.id) := (List.nodup_cons.mp hnd).1
      by_cases hq : (x.id == iid) = true
      · exfalso
        have hxid : x.id = iid := beq_iff_eq.mp hq
        have hiid : item.id = iid := beq_iff_eq.mp hitem_id
        exact hx_not (by
          rw [hxid, ← hiid]
          exact List.mem_map_of_mem (fun it => it.id) hitem_mem)
      · obtain ⟨hmap, hfnd1, hfnd2⟩ := ih item hnd_tail hfind'
        have hqx : (x.id == iid) = false := by simpa using hq
        refine ⟨?_, ?_, ?_⟩
        · simp [updateFirst, hqx, hmap]
        · simp [updateFirst, hqx, List.find?_cons, hfnd1]
        · simp [updateFirst, hqx, List.find?_cons, hfnd2, hx']

/-! ### Claims -/

/-- C5: for every username already present in the credential store, a second
`register` call with that username fails with DuplicateUsername
(400 "Usuário já existe"), no second credential record is created, and the
existing record is not overwritten: the store is returned unchanged. -/
theorem C5_duplicate_username (db : DB) (username password newId ts : String)
    (r : Nat) (now : Int)
    (h : (db.users.find? (fun u => u.username == username)).isSome) :
    register db username password newId ts r now =
      (.error (.http errUserExists), db) := by
  obtain ⟨u0, hu⟩ := Option.isSome_iff_exists.mp h
  simp [register, hu]

/-- Concrete store with one registered user, for the C5 witness. -/
def dbC5 : DB := ⟨[⟨"u1", "alice", "h0", "t0"⟩], [], []⟩

/-- C5 witness: a duplicate registration of "alice" against `dbC5`. -/
theorem C5_witness :
    (dbC5.users.find? (fun u => u.username == "alice")).isSome ∧
    register dbC5 "alice" "pw" "u2" "t1" 0 0 = (.error (.http errUserExists), dbC5) :=
  ⟨by decide, C5_duplicate_username dbC5 "alice" "pw" "u2" "t1" 0 0 (by decide)⟩

/-- C4 counterexample: on the structurally malformed stored hash "nothash",
`verify_password` propagates bcrypt's `ValueError("Invalid salt")` instead of
returning `false`. -/
theorem C4_counterexample :
    verify_password "pw123" "nothash" = .error "Invalid salt" ∧
    verify_password "pw123" "nothash" ≠ .ok false := by
  refine ⟨rfl, ?_⟩
  decide

/-- C4 (amended): for every plaintext and every hash produced by
`hash_password`, `verify_password` returns a boolean (true exactly for the
hashed password) and never raises; on a structurally malformed stored hash it
raises bcrypt's `ValueError("Invalid salt")` rather than returning false. -/
theorem C4_verify_behaviour (pw pw' junk : String) (r : Nat)
    (hjunk : stripBcryptHeader junk.data = none) :
    verify_password pw (hash_password pw' r) = .ok (pw == pw') ∧
    verify_password pw junk = .error "Invalid salt" := by
  refine ⟨checkpw_hash_password pw pw' r, ?_⟩
  simp [verify_password, bcrypt_checkpw, hjunk]

/-- C4 witness: the amended behaviour at concrete inputs. -/
theorem C4_witness :
    stripBcryptHeader ("junkhash").data = none ∧
    (verify_password "a" (hash_password "b" 3) = .ok ("a" == "b") ∧
     verify_password "a" "junkhash" = .error "Invalid salt") :=
  ⟨rfl, C4_verify_behaviour "a" "b" "junkhash" 3 rfl⟩

/-- A token whose claims have expired but whose signature is not the HMAC of
its payload under `JWT_SECRET`. -/
def forgedToken : JwtToken := ⟨⟨"u1", "alice", -1⟩, "forged"⟩

/-- C3 counterexample: an expired token with an invalid signature fails with
MalformedToken (401 "Token inválido"), not ExpiredToken — `jwt.decode`
verifies the signature before the `exp` claim. -/
theorem C3_counterexample :
    forgedToken.payload.exp < 0 ∧
    decode_jwt_token 0 forgedToken = .error errTokenInvalid ∧
    errTokenInvalid ≠ errTokenExpired := by
  refine ⟨by decide, ?_, by decide⟩
  decide

/-- C3 (amended): a token whose embedded expiration is earlier than the
current time fails validation — with ExpiredToken when its signature is
valid, and with MalformedToken when it is not. -/
theorem C3_expired_token (t : JwtToken) (now : Int) (h : t.payload.exp < now) :
    decode_jwt_token now t =
      .error (if t.sig = hmac_sign JWT_SECRET t.payload
              then errTokenExpired else errTokenInvalid) := by
  by_cases hs : t.sig = hmac_sign JWT_SECRET t.payload
  · simp [decode_jwt_token, hs, le_of_lt h]
  · simp [decode_jwt_token, hs]

/-- C3 witness: an expired self-issued (validly signed) token at time 0. -/
theorem C3_witness :
    (create_jwt_token "u1" "alice" (-604801)).payload.exp < 0 ∧
    decode_jwt_token 0 (create_jwt_token "u1" "alice" (-604801)) =
      .error (if (create_jwt_token "u1" "alice" (-604801)).sig =
                hmac_sign JWT_SECRET (create_jwt_token "u1" "alice" (-604801)).payload
              then errTokenExpired else errTokenInvalid) :=
  ⟨by decide, C3_expired_token (create_jwt_token "u1" "alice" (-604801)) 0 (by decide)⟩

/-- C6: a login with an existing username but a wrong password and a login
with a nonexistent username fail with the same error
(401 "Usuário ou senha incorretos"), so the two cases are indistinguishable
to the caller. -/
theorem C6_login_indistinguishable (db : DB) (uname1 pw1 pw0 : String)
    (r : Nat) (u : UserRec)
    (hfind : db.users.find? (fun x => x.username == uname1) = some u)
    (hhash : u.password_hash = hash_password pw0 r)
    (hwrong : pw1 ≠ pw0)
    (uname2 pw2 : String)
    (habs : db.users.find? (fun x => x.username == uname2) = none)
    (now now' : Int) :
    login db uname1 pw1 now = .error (.http errInvalidCredentials) ∧
    login db uname2 pw2 now' = .error (.http errInvalidCredentials) := by
  constructor
  · have hv : verify_password pw1 u.password_hash = .ok false := by
      rw [hhash, verify_password, checkpw_hash_password]
      simp [hwrong]
    simp [login, hfind, hv]
  · simp [login, habs]

/-- Concrete store with one credential record, for the C6 witness. -/
def dbC6 : DB := ⟨[⟨"u1", "alice", hash_password "pw0" 0, "t0"⟩], [], []⟩

/-- C6 witness: wrong password for "alice" and unknown username "ghost". -/
theorem C6_witness :
    dbC6.users.find? (fun x => x.username == "alice") =
      some ⟨"u1", "alice", hash_password "pw0" 0, "t0"⟩ ∧
    (⟨"u1", "alice", hash_password "pw0" 0, "t0"⟩ : UserRec).password_hash =
      hash_password "pw0" 0 ∧
    ("wrong" : String) ≠ "pw0" ∧
    dbC6.users.find? (fun x => x.username == "ghost") = none ∧
    (login dbC6 "alice" "wrong" 0 = .error (.http errInvalidCredentials) ∧
     login dbC6 "ghost" "pw" 1 = .error (.http errInvalidCredentials)) :=
  ⟨rfl, rfl, by decide, rfl,
   C6_login_indistinguishable dbC6 "alice" "wrong" "pw0" 0
     ⟨"u1", "alice", hash_password "pw0" 0, "t0"⟩ rfl rfl (by decide)
     "ghost" "pw" rfl 0 1⟩

/-- Every item returned by `get_items` belongs to the requesting user. -/
theorem mem_get_items_owner (db : DB) (u : UserRec) (x : ShoppingItem)
    (h : x ∈ get_items db u) : x.user_id = u.id := by
  unfold get_items at h
  have h1 := List.take_subset _ _ h
  have h2 := (List.mergeSort_perm _ _).subset h1
  have h3 := List.mem_filter.mp h2
  exact beq_iff_eq.mp h3.2

/-- C1: an item created by user A is absent from a distinct user B's listing,
and B's update, toggle and delete attempts on its identifier all fail with
NotFound (404 "Item não encontrado"), leaving the store unchanged. -/
theorem C1_owner_isolation (db : DB) (A B : UserRec)
    (data : ShoppingItemCreate) (newId ts ts' : String)
    (patch : ShoppingItemUpdate)
    (hAB : B.id ≠ A.id)
    (hfresh : ∀ it ∈ db.shopping_items, it.id ≠ newId) :
    (create_item db A data newId ts).1 ∉ get_items (create_item db A data newId ts).2 B ∧
    update_item (create_item db A data newId ts).2 B newId patch ts' =
      (.error (.http errItemNotFound), (create_item db A data newId ts).2) ∧
    toggle_item (create_item db A data newId ts).2 B newId ts' =
      (.error (.http errItemNotFound), (create_item db A data newId ts).2) ∧
    delete_item (create_item db A data newId ts).2 B newId =
      (.error (.http errItemNotFound), (create_item db A data newId ts).2) := by
  have hall : ∀ x ∈ (create_item db A data newId ts).2.shopping_items,
      (x.id == newId && x.user_id == B.id) = false := by
    intro x hx
    simp only [create_item] at hx
    rcases List.mem_append.mp hx with hmem | hmem
    · have := hfresh x hmem
      simp [this]
    · simp at hmem
      subst hmem
      simp [Ne.symm hAB]
  have hnone : (create_item db A data newId ts).2.shopping_items.find?
      (fun it => it.id == newId && it.user_id == B.id) = none := by
    rw [List.find?_eq_none]
    intro x hx
    simp [hall x hx]
  refine ⟨?_, ?_, ?_, ?_⟩
  · intro hmem
    have := mem_get_items_owner _ _ _ hmem
    simp only [create_item] at this
    exact hAB this.symm
  · simp [update_item, hnone]
  · simp [toggle_item, hnone]
  · simp [delete_item, deleteFirst_of_forall_not _ _ hall]

/-- Concrete users for the C1 witness. -/
def userA : UserRec := ⟨"ua", "alice", "h1", "t0"⟩

/-- Second concrete user for the C1 witness. -/
def userB : UserRec := ⟨"ub", "bob", "h2", "t0"⟩

/-- Empty store for the C1 and C2 witnesses. -/
def dbEmpty : DB := ⟨[], [], []⟩

/-- C1 witness: alice creates an item in an empty store; bob cannot see or
touch it. -/
theorem C1_witness :
    userB.id ≠ userA.id ∧
    (∀ it ∈ dbEmpty.shopping_items, it.id ≠ "i1") ∧
    ((create_item dbEmpty userA ⟨"Milk", none, "cat-4"⟩ "i1" "t1").1 ∉
        get_items (create_item dbEmpty userA ⟨"Milk", none, "cat-4"⟩ "i1" "t1").2 userB ∧
     update_item (create_item dbEmpty userA ⟨"Milk", none, "cat-4"⟩ "i1" "t1").2 userB "i1"
        ⟨some "Oat milk", none, none⟩ "t2" =
      (.error (.http errItemNotFound),
       (create_item dbEmpty userA ⟨"Milk", none, "cat-4"⟩ "i1" "t1").2) ∧
     toggle_item (create_item dbEmpty userA ⟨"Milk", none, "cat-4"⟩ "i1" "t1").2 userB "i1" "t2" =
      (.error (.http errItemNotFound),
       (create_item dbEmpty userA ⟨"Milk", none, "cat-4"⟩ "i1" "t1").2) ∧
     delete_item (create_item dbEmpty userA ⟨"Milk", none, "cat-4"⟩ "i1" "t1").2 userB "i1" =
      (.error (.http errItemNotFound),
       (create_item dbEmpty userA ⟨"Milk", none, "cat-4"⟩ "i1" "t1").2)) :=
  ⟨by decide, by simp [dbEmpty],
   C1_owner_isolation dbEmpty userA userB ⟨"Milk", none, "cat-4"⟩ "i1" "t1" "t2"
     ⟨some "Oat milk", none, none⟩ (by decide) (by simp [dbEmpty])⟩

/-- C2: with a fresh username, `register` succeeds; a subsequent `login` with
the same credentials succeeds; and the token returned by `register` and the
token returned by `login` both resolve (before expiry) to the same user
identifier — the registered user's id. -/
theorem C2_register_login_resolve (db : DB) (username password newId ts : String)
    (r : Nat) (now now₁ now₂ now₃ : Int)
    (habs : db.users.find? (fun u => u.username == username) = none)
    (hfresh : ∀ u ∈ db.users, u.id ≠ newId)
    (h₂ : now₂ < now + JWT_EXPIRATION_HOURS * 3600)
    (h₃ : now₃ < now₁ + JWT_EXPIRATION_HOURS * 3600) :
    register db username password newId ts r now =
      (.ok ⟨create_jwt_token newId username now, "bearer", ⟨newId, username, ts⟩⟩,
       { db with users := db.users ++ [⟨newId, username, hash_password password r, ts⟩] }) ∧
    login { db with users := db.users ++ [⟨newId, username, hash_password password r, ts⟩] }
        username password now₁ =
      .ok ⟨create_jwt_token newId username now₁, "bearer", ⟨newId, username, ts⟩⟩ ∧
    (get_current_user
        { db with users := db.users ++ [⟨newId, username, hash_password password r, ts⟩] }
        (create_jwt_token newId username now) now₂).map (fun u => u.id) = .ok newId ∧
    (get_current_user
        { db with users := db.users ++ [⟨newId, username, hash_password password r, ts⟩] }
        (create_jwt_token newId username now₁) now₃).map (fun u => u.id) = .ok newId := by
  have hfindu : (db.users ++ [(⟨newId, username, hash_password password r, ts⟩ : UserRec)]).find?
      (fun u => u.username == username) =
      some ⟨newId, username, hash_password password r, ts⟩ := by
    rw [List.find?_append, habs]
    simp
  have hfindid : (db.users ++ [(⟨newId, username, hash_password password r, ts⟩ : UserRec)]).find?
      (fun u => u.id == newId) =
      some ⟨newId, username, hash_password password r, ts⟩ := by
    rw [List.find?_append]
    have hn : db.users.find? (fun u => u.id == newId) = none := by
      rw [List.find?_eq_none]
      intro x hx
      simp [hfresh x hx]
    rw [hn]
    simp
  have hverify : verify_password password (hash_password password r) = .ok true := by
    rw [verify_password, checkpw_hash_password]
    simp
  refine ⟨?_, ?_, ?_, ?_⟩
  · simp [register, habs, publicUser]
  · simp [login, hfindu, hverify, publicUser]
  · simp [get_current_user, decode_create_jwt _ _ _ _ h₂, hfindid, Except.map]
  · simp [get_current_user, decode_create_jwt _ _ _ _ h₃, hfindid, Except.map]

/-- C2 witness: registering "alice" in an empty store, logging in at time 5,
and resolving both tokens at times 6 and 7. -/
theorem C2_witness :
    dbEmpty.users.find? (fun u => u.username == "alice") = none ∧
    (∀ u ∈ dbEmpty.users, u.id ≠ "u1") ∧
    (6 : Int) < 0 + JWT_EXPIRATION_HOURS * 3600 ∧
    (7 : Int) < 5 + JWT_EXPIRATION_HOURS * 3600 ∧
    (register dbEmpty "alice" "pw" "u1" "t0" 0 0 =
      (.ok ⟨create_jwt_token "u1" "alice" 0, "bearer", ⟨"u1", "alice", "t0"⟩⟩,
       { dbEmpty with users := dbEmpty.users ++ [⟨"u1", "alice", hash_password "pw" 0, "t0"⟩] }) ∧
     login { dbEmpty with users := dbEmpty.users ++ [⟨"u1", "alice", hash_password "pw" 0, "t0"⟩] }
        "alice" "pw" 5 =
      .ok ⟨create_jwt_token "u1" "alice" 5, "bearer", ⟨"u1", "alice", "t0"⟩⟩ ∧
     (get_current_user
        { dbEmpty with users := dbEmpty.users ++ [⟨"u1", "alice", hash_password "pw" 0, "t0"⟩] }
        (create_jwt_token "u1" "alice" 0) 6).map (fun u => u.id) = .ok "u1" ∧
     (get_current_user
        { dbEmpty with users := dbEmpty.users ++ [⟨"u1", "alice", hash_password "pw" 0, "t0"⟩] }
        (create_jwt_token "u1" "alice" 5) 7).map (fun u => u.id) = .ok "u1") :=
  ⟨rfl, by simp [dbEmpty], by decide, by decide,
   C2_register_login_resolve dbEmpty "alice" "pw" "u1" "t0" 0 0 5 6 7
     rfl (by simp [dbEmpty]) (by decide) (by decide)⟩

/-- C7: for an item owned by the caller (item identifiers pairwise distinct),
one toggle stores and returns the boolean negation of the stored purchased
flag, and a second toggle returns the flag to its original value. -/
theorem C7_toggle_involution (db : DB) (u : UserRec) (item_id ts ts₂ : String)
    (item : ShoppingItem)
    (hnd : (db.shopping_items.map (fun it => it.id)).Nodup)
    (hfind : db.shopping_items.find?
      (fun it => it.id == item_id && it.user_id == u.id) = some item) :
    (toggle_item db u item_id ts).1 =
      .ok { item with is_purchased := !item.is_purchased, updated_at := ts } ∧
    ((toggle_item (toggle_item db u item_id ts).2 u item_id ts₂).1).map
        (fun it => it.is_purchased) = .ok item.is_purchased := by
  obtain ⟨hmap, hfnd1, hfnd2⟩ := updateFirst_find_spec item_id u.id
    (fun it => { it with is_purchased := !item.is_purchased, updated_at := ts })
    (fun it => ⟨rfl, rfl⟩) db.shopping_items item hnd hfind
  have h1 : toggle_item db u item_id ts =
      (.ok { item with is_purchased := !item.is_purchased, updated_at := ts },
       { db with shopping_items := (updateFirst (fun it => it.id == item_id)
          (fun it => { it with is_purchased := !item.is_purchased, updated_at := ts })
          db.shopping_items) }) := by
    simp [toggle_item, hfind, hfnd1]
  obtain ⟨hmap2, hfnd1b, hfnd2b⟩ := updateFirst_find_spec item_id u.id
    (fun it => { it with is_purchased := !(!item.is_purchased), updated_at := ts₂ })
    (fun it => ⟨rfl, rfl⟩)
    (updateFirst (fun it => it.id == item_id)
      (fun it => { it with is_purchased := !item.is_purchased, updated_at := ts })
      db.shopping_items)
    { item with is_purchased := !item.is_purchased, updated_at := ts }
    (by rw [hmap]; exact hnd) hfnd2
  simp only [Bool.not_not] at hfnd1b
  refine ⟨by rw [h1], ?_⟩
  rw [h1]
  simp [toggle_item, hfnd2, hfnd1b, Except.map]

/-- Concrete store with a single item owned by alice, for the item-route
witnesses. -/
def dbItems : DB :=
  ⟨[], [], [⟨"i1", "ua", "Milk", none, "cat-4", false, "t0", "t0"⟩]⟩

/-- C7 witness: toggling alice's item twice restores its purchased flag. -/
theorem C7_witness :
    (dbItems.shopping_items.map (fun it => it.id)).Nodup ∧
    dbItems.shopping_items.find?
      (fun it => it.id == "i1" && it.user_id == userA.id) =
      some ⟨"i1", "ua", "Milk", none, "cat-4", false, "t0", "t0"⟩ ∧
    ((toggle_item dbItems userA "i1" "t1").1 =
      .ok ⟨"i1", "ua", "Milk", none, "cat-4", true, "t0", "t1"⟩ ∧
     ((toggle_item (toggle_item dbItems userA "i1" "t1").2 userA "i1" "t2").1).map
        (fun it => it.is_purchased) = .ok false) :=
  ⟨by decide, rfl,
   C7_toggle_involution dbItems userA "i1" "t1" "t2"
     ⟨"i1", "ua", "Milk", none, "cat-4", false, "t0", "t0"⟩ (by decide) rfl⟩

/-- C10: for an item owned by the caller (item identifiers pairwise
distinct), a partial update stores and returns `applyItemPatch`: fields whose
patch value is `None` are left unchanged, a set `photo_url` can never be
cleared back to null, and `updated_at` is rewritten on every call — including
one whose patch fields are all `None`. -/
theorem C10_partial_update (db : DB) (u : UserRec) (item_id ts : String)
    (patch : ShoppingItemUpdate) (item : ShoppingItem)
    (hnd : (db.shopping_items.map (fun it => it.id)).Nodup)
    (hfind : db.shopping_items.find?
      (fun it => it.id == item_id && it.user_id == u.id) = some item) :
    (update_item db u item_id patch ts).1 = .ok (applyItemPatch patch ts item) ∧
    ((update_item db u item_id patch ts).2).shopping_items.find?
      (fun it => it.id == item_id) = some (applyItemPatch patch ts item) ∧
    (patch.description = none →
      (applyItemPatch patch ts item).description = item.description) ∧
    (patch.photo_url = none →
      (applyItemPatch patch ts item).photo_url = item.photo_url) ∧
    (patch.category_id = none →
      (applyItemPatch patch ts item).category_id = item.category_id) ∧
    (applyItemPatch patch ts item).updated_at = ts ∧
    ((applyItemPatch patch ts item).photo_url = none → item.photo_url = none) := by
  obtain ⟨hmap, hfnd1, hfnd2⟩ := updateFirst_find_spec item_id u.id
    (applyItemPatch patch ts) (fun it => ⟨rfl, rfl⟩) db.shopping_items item hnd hfind
  refine ⟨?_, ?_, ?_, ?_, ?_, rfl, ?_⟩
  · simp [update_item, hfind, hfnd1]
  · simp [update_item, hfind, hfnd1]
  · intro h; simp [applyItemPatch, h]
  · intro h; simp [applyItemPatch, h]
  · intro h; simp [applyItemPatch, h]
  · intro h
    cases hp : patch.photo_url with
    | none => simpa [applyItemPatch, hp] using h
    | some p => simp [applyItemPatch, hp] at h

/-- C10 witness: the all-`None` patch on alice's item changes nothing except
`updated_at`. -/
theorem C10_witness :
    (dbItems.shopping_items.map (fun it => it.id)).Nodup ∧
    dbItems.shopping_items.find?
      (fun it => it.id == "i1" && it.user_id == userA.id) =
      some ⟨"i1", "ua", "Milk", none, "cat-4", false, "t0", "t0"⟩ ∧
    ((update_item dbItems userA "i1" ⟨none, none, none⟩ "t1").1 =
      .ok (applyItemPatch ⟨none, none, none⟩ "t1"
        ⟨"i1", "ua", "Milk", none, "cat-4", false, "t0", "t0"⟩) ∧
     ((update_item dbItems userA "i1" ⟨none, none, none⟩ "t1").2).shopping_items.find?
      (fun it => it.id == "i1") =
      some (applyItemPatch ⟨none, none, none⟩ "t1"
        ⟨"i1", "ua", "Milk", none, "cat-4", false, "t0", "t0"⟩) ∧
     ((⟨none, none, none⟩ : ShoppingItemUpdate).description = none →
      (applyItemPatch ⟨none, none, none⟩ "t1"
        ⟨"i1", "ua", "Milk", none, "cat-4", false, "t0", "t0"⟩).description = "Milk") ∧
     ((⟨none, none, none⟩ : ShoppingItemUpdate).photo_url = none →
      (applyItemPatch ⟨none, none, none⟩ "t1"
        ⟨"i1", "ua", "Milk", none, "cat-4", false, "t0", "t0"⟩).photo_url = none) ∧
     ((⟨none, none, none⟩ : ShoppingItemUpdate).category_id = none →
      (applyItemPatch ⟨none, none, none⟩ "t1"
        ⟨"i1", "ua", "Milk", none, "cat-4", false, "t0", "t0"⟩).category_id = "cat-4") ∧
     (applyItemPatch ⟨none, none, none⟩ "t1"
        ⟨"i1", "ua", "Milk", none, "cat-4", false, "t0", "t0"⟩).updated_at = "t1" ∧
     ((applyItemPatch ⟨none, none, none⟩ "t1"
        ⟨"i1", "ua", "Milk", none, "cat-4", false, "t0", "t0"⟩).photo_url = none →
      (none : Option String) = none)) :=
  ⟨by decide, rfl,
   C10_partial_update dbItems userA "i1" "t1" ⟨none, none, none⟩
     ⟨"i1", "ua", "Milk", none, "cat-4", false, "t0", "t0"⟩ (by decide) rfl⟩

/-- C9: `get_items` returns only the caller's items, sorted by `created_at`
descending (newest first), truncated to at most 1000 records; and
`get_categories` is likewise truncated to at most 1000 records. -/
theorem C9_listing_sorted_truncated (db : DB) (u : UserRec) :
    (∀ it ∈ get_items db u, it.user_id = u.id) ∧
    (get_items db u).Sorted (fun a b => b.created_at ≤ a.created_at) ∧
    (get_items db u).length ≤ 1000 ∧
    (get_categories db u).length ≤ 1000 := by
  refine ⟨fun it h => mem_get_items_owner db u it h, ?_, ?_, ?_⟩
  · have htrans : ∀ a b c : ShoppingItem,
        decide (b.created_at ≤ a.created_at) = true →
        decide (c.created_at ≤ b.created_at) = true →
        decide (c.created_at ≤ a.created_at) = true := by
      intro a b c hab hbc
      simp only [decide_eq_true_eq] at hab hbc ⊢
      exact le_trans hbc hab
    have htotal : ∀ a b : ShoppingItem,
        (decide (b.created_at ≤ a.created_at) ||
         decide (a.created_at ≤ b.created_at)) = true := by
      intro a b
      simp [le_total]
    have hs := List.sorted_mergeSort htrans htotal
      (db.shopping_items.filter (fun it => it.user_id == u.id))
    have hs' := List.Pairwise.sublist (List.take_sublist 1000 _) hs
    unfold get_items
    exact hs'.imp (fun h => of_decide_eq_true h)
  · unfold get_items
    rw [List.length_take]
    exact inf_le_left
  · unfold get_categories
    rw [List.length_take]
    exact inf_le_left

/-- C8: the `password_hash` stored on the credential record never appears in
the payload of any response of `register`, `login`, or `get_me`. -/
theorem C8_no_password_hash_leak (db₁ db₂ db₃ : DB)
    (uname₁ pw₁ newId ts uname₂ pw₂ : String)
    (r : Nat) (now now' now'' : Int) (t : JwtToken)
    (tr tr' : TokenResponse) (me : User)
    (hreg : (register db₁ uname₁ pw₁ newId ts r now).1 = .ok tr)
    (hlog : login db₂ uname₂ pw₂ now' = .ok tr')
    (hme : get_me db₃ t now'' = .ok me) :
    "password_hash" ∉ tr.dumpKeys ∧
    "password_hash" ∉ tr'.dumpKeys ∧
    "password_hash" ∉ (User.model_dump me).map Prod.fst := by
  refine ⟨?_, ?_, ?_⟩ <;> simp [TokenResponse.dumpKeys, User.model_dump]

/-- Concrete store with one registered user, for the C8 witness. -/
def dbC8 : DB := ⟨[⟨"u1", "alice", hash_password "pw" 0, "t0"⟩], [], []⟩

/-- C8 witness: a successful registration, login and `get_me` against `dbC8`,
none of whose responses carry a `password_hash` key. -/
theorem C8_witness :
    (register dbC8 "bob" "pw2" "u2" "t1" 0 0).1 =
      .ok ⟨create_jwt_token "u2" "bob" 0, "bearer", ⟨"u2", "bob", "t1"⟩⟩ ∧
    login dbC8 "alice" "pw" 5 =
      .ok ⟨create_jwt_token "u1" "alice" 5, "bearer", ⟨"u1", "alice", "t0"⟩⟩ ∧
    get_me dbC8 (create_jwt_token "u1" "alice" 0) 6 = .ok ⟨"u1", "alice", "t0"⟩ ∧
    ("password_hash" ∉
        TokenResponse.dumpKeys ⟨create_jwt_token "u2" "bob" 0, "bearer", ⟨"u2", "bob", "t1"⟩⟩ ∧
     "password_hash" ∉
        TokenResponse.dumpKeys ⟨create_jwt_token "u1" "alice" 5, "bearer", ⟨"u1", "alice", "t0"⟩⟩ ∧
     "password_hash" ∉ (User.model_dump ⟨"u1", "alice", "t0"⟩).map Prod.fst) :=
  ⟨by decide, by decide, by decide,
   C8_no_password_hash_leak dbC8 dbC8 dbC8 "bob" "pw2" "u2" "t1" "alice" "pw" 0 0 5 6
     (create_jwt_token "u1" "alice" 0)
     ⟨create_jwt_token "u2" "bob" 0, "bearer", ⟨"u2", "bob", "t1"⟩⟩
     ⟨create_jwt_token "u1" "alice" 5, "bearer", ⟨"u1", "alice", "t0"⟩⟩
     ⟨"u1", "alice", "t0"⟩ (by decide) (by decide) (by decide)⟩

end Server
